import Mathlib

/-!
Verification of the `webaudit` audit pipeline (`src/app.py`).

The Python program is shallowly embedded: dictionaries become a JSON-like
value type `JVal`, external effects (subprocess runs, HTTP probes, the
browser, the text-generation service) become explicit outcome parameters,
and every function of the source is translated into a total Lean function
over those inputs.  Numeric formatting (`f"{x:.0f}"`, `f"{x:.1f}"`) is
modelled over the rationals with round-half-to-even, which is the rounding
Python's fixed-point float formatting uses.
-/

namespace WebAudit

/-- ASCII whitespace: the relevant fragment of the whitespace set of Python
`str.strip` and of the regex class `\s`. -/
def isPySpace (c : Char) : Bool :=
  c == ' ' || c == '\t' || c == '\n' || c == '\r' || c == '\x0b' || c == '\x0c'

/-- Python `s.strip()`: drop leading and trailing whitespace. -/
def pyStrip (s : String) : String :=
  ⟨((s.data.dropWhile isPySpace).reverse.dropWhile isPySpace).reverse⟩

/-- Python `s.startswith(pre)`. -/
def pyStartsWith (pre s : String) : Bool :=
  pre.data.isPrefixOf s.data

/-- Round a rational to the nearest integer, ties to even (the rounding used
by Python's fixed-point formatting of nonnegative values). -/
def roundHalfEven (q : ℚ) : ℤ :=
  let f : ℤ := ⌊q⌋
  let r : ℚ := q - f
  if r < 1/2 then f
  else if 1/2 < r then f + 1
  else if f % 2 = 0 then f else f + 1

/-- Python `f"{q:.0f}"` (zero-decimal fixed-point formatting). -/
def formatZeroDec (q : ℚ) : String :=
  toString (roundHalfEven q)

/-- Python `f"{q:.1f}"` for a nonnegative value (every value the source
formats this way is a percentage in `[0, 100]`). -/
def formatOneDec (q : ℚ) : String :=
  let n : Nat := (roundHalfEven (q * 10)).toNat
  toString (n / 10) ++ "." ++ toString (n % 10)

/-- JSON-like values: the shape of the Python dictionaries the audit
pipeline builds and passes around. -/
inductive JVal where
  | jstr (s : String)
  | jnum (q : ℚ)
  | jbool (b : Bool)
  | jnull
  | jarr (xs : List JVal)
  | jobj (kvs : List (String × JVal))

/-- `d.get(k)` on a Python dict (None when absent or when the value is not
a dict). -/
def JVal.get : JVal → String → Option JVal
  | .jobj kvs, k => kvs.lookup k
  | _, _ => none

/-- `d.pop(k, None)`: remove a key from a dict (other values unchanged). -/
def JVal.pop : JVal → String → JVal
  | .jobj kvs, k => .jobj (kvs.filter fun kv => kv.1 != k)
  | v, _ => v

/-- Python truthiness of a JSON-like value. -/
def JVal.truthy : JVal → Bool
  | .jstr s => s != ""
  | .jnum q => q != 0
  | .jbool b => b
  | .jnull => false
  | .jarr xs => !xs.isEmpty
  | .jobj kvs => !kvs.isEmpty

/-- `bool(d.get(k))`: the key is present and its value is truthy. -/
def JVal.getTruthy (v : JVal) (k : String) : Bool :=
  match v.get k with
  | some x => x.truthy
  | none => false

/-- Apply a function to the value stored under one key of a dict. -/
def JVal.mapKey (v : JVal) (k : String) (f : JVal → JVal) : JVal :=
  match v with
  | .jobj kvs => .jobj (kvs.map fun kv => if kv.1 == k then (kv.1, f kv.2) else kv)
  | x => x

/-- The keys of the top-level object (empty for non-objects). -/
def JVal.topKeys : JVal → List String
  | .jobj kvs => kvs.map fun kv => kv.1
  | _ => []

mutual

/-- Every key occurring anywhere inside a JSON-like value. -/
def JVal.allKeys : JVal → List String
  | .jobj kvs => allKeysKvs kvs
  | .jarr xs => allKeysList xs
  | _ => []

def allKeysList : List JVal → List String
  | [] => []
  | v :: vs => v.allKeys ++ allKeysList vs

def allKeysKvs : List (String × JVal) → List String
  | [] => []
  | kv :: kvs => kv.1 :: (kv.2.allKeys ++ allKeysKvs kvs)

end

/-! ### Regular-expression detectors (`analyze_technical`)

The two `re.search` calls of the source are embedded as exhaustive
backtracking matchers over character lists.  A matcher takes the input and
returns the list of possible remainders after consuming a match of the
sub-pattern; `re.search` semantics ("the pattern matches somewhere in the
string") is an existential over all start positions. -/

/-- Consume one character of a class. -/
def chcls (p : Char → Bool) : List Char → List (List Char)
  | [] => []
  | c :: rest => if p c then [rest] else []

/-- Consume one literal character. -/
def lit (ch : Char) : List Char → List (List Char)
  | [] => []
  | c :: rest => if c == ch then [rest] else []

/-- `X?`: the sub-pattern is optional. -/
def opt (m : List Char → List (List Char)) (cs : List Char) : List (List Char) :=
  cs :: m cs

/-- Sequencing of sub-patterns. -/
def seq (m1 m2 : List Char → List (List Char)) (cs : List Char) : List (List Char) :=
  (m1 cs).flatMap m2

/-- `[c]*`: consume any number of characters of a class. -/
def repMany (p : Char → Bool) : List Char → List (List Char)
  | [] => [[]]
  | c :: rest => (c :: rest) :: (if p c then repMany p rest else [])

/-- `[c]+`: consume at least one character of a class. -/
def repPlus (p : Char → Bool) (cs : List Char) : List (List Char) :=
  seq (chcls p) (repMany p) cs

/-- `[c]{lo}` followed by up to `n` more: helper for bounded repetition. -/
def repUpTo (p : Char → Bool) : Nat → List Char → List (List Char)
  | 0, cs => [cs]
  | n + 1, cs => cs :: (chcls p cs).flatMap (repUpTo p n)

/-- Consume exactly `n` characters of a class. -/
def repExact (p : Char → Bool) : Nat → List Char → List (List Char)
  | 0, cs => [cs]
  | n + 1, cs => (chcls p cs).flatMap (repExact p n)

/-- `[c]{lo,hi}`: consume between `lo` and `hi` characters of a class. -/
def repBetween (p : Char → Bool) (lo hi : Nat) (cs : List Char) : List (List Char) :=
  (repExact p lo cs).flatMap (repUpTo p (hi - lo))

/-- The character class `[a-zA-Z0-9._%+-]` of the email pattern. -/
def isLocalChar (c : Char) : Bool :=
  c.isAlpha || c.isDigit || c == '.' || c == '_' || c == '%' || c == '+' || c == '-'

/-- The character class `[a-zA-Z0-9.-]` of the email pattern. -/
def isDomainChar (c : Char) : Bool :=
  c.isAlpha || c.isDigit || c == '.' || c == '-'

/-- The character class `[-.\s]` of the phone pattern (ASCII whitespace). -/
def isSepChar (c : Char) : Bool :=
  c == '-' || c == '.' || c == ' ' || c == '\t' || c == '\n' || c == '\r' ||
  c == '\x0b' || c == '\x0c'

/-- The email pattern `[a-zA-Z0-9._%+-]+@[a-zA-Z0-9.-]+\.[a-zA-Z]{2,}`
matched at the head of the input.  The trailing `[a-zA-Z]{2,}` is matched as
exactly two letters: under search semantics nothing follows the pattern, so a
match consuming more letters exists iff one consuming exactly two does. -/
def emailAt (cs : List Char) : Bool :=
  let m :=
    seq (repPlus isLocalChar)
      (seq (lit '@')
        (seq (repPlus isDomainChar)
          (seq (lit '.')
            (seq (chcls Char.isAlpha) (chcls Char.isAlpha)))))
  !(m cs).isEmpty

/-- The phone pattern
`(\+\d{1,3}[-.\s]?)?\(?\d{1,4}\)?[-.\s]?\d{1,4}[-.\s]?\d{1,9}` matched at the
head of the input (`phone_pattern` in `analyze_technical`). -/
def phoneAt (cs : List Char) : Bool :=
  let plusGroup :=
    seq (lit '+') (seq (repBetween Char.isDigit 1 3) (opt (chcls isSepChar)))
  let m :=
    seq (opt plusGroup)
      (seq (opt (lit '('))
        (seq (repBetween Char.isDigit 1 4)
          (seq (opt (lit ')'))
            (seq (opt (chcls isSepChar))
              (seq (repBetween Char.isDigit 1 4)
                (seq (opt (chcls isSepChar))
                  (repBetween Char.isDigit 1 9)))))))
  !(m cs).isEmpty

/-- `re.search(pat, s)` as a boolean: the pattern matches at some position. -/
def searchMatch (matchAt : List Char → Bool) (s : String) : Bool :=
  s.toList.tails.any matchAt

/-- Case-sensitive substring test (Python `needle in hay` / `re.search` of a
literal). -/
def containsSubstr (needle hay : String) : Bool :=
  hay.toList.tails.any fun t => needle.toList.isPrefixOf t

/-- ASCII lowercasing, for `re.I`. -/
def lowerAscii (s : String) : String := ⟨s.data.map Char.toLower⟩

/-- `re.search(re.compile(needle, re.I), hay)` for a literal needle:
case-insensitive substring test. -/
def containsCI (needle hay : String) : Bool :=
  containsSubstr (lowerAscii needle) (lowerAscii hay)

/-! ### Performance auditor (`run_single_lighthouse_audit`, `run_lighthouse_audits`) -/

/-- The part of a parsed Lighthouse JSON report the source consumes:
`audits` (metric id → optional `displayValue`) and `categories` (category
name → optional `score`).  `none` models both an absent sub-key and a JSON
null. -/
structure LhReport where
  audits : List (String × Option String)
  categories : List (String × Option ℚ)

/-- The raw report as a JSON value, kept verbatim under `full_report`. -/
def LhReport.toJVal (r : LhReport) : JVal :=
  .jobj
    [("audits", .jobj (r.audits.map fun a =>
        (a.1, match a.2 with
              | some s => JVal.jobj [("displayValue", .jstr s)]
              | none => JVal.jobj []))),
     ("categories", .jobj (r.categories.map fun c =>
        (c.1, match c.2 with
              | some q => JVal.jobj [("score", .jnum q)]
              | none => JVal.jobj [])))]

/-- The outcome of one `subprocess.run` of Lighthouse followed by
`json.loads`: the three failure modes the source catches, or a parsed
report. -/
inductive RunOutcome where
  | timeout
  | exitError (msg stderr : String)
  | jsonError (msg : String)
  | ok (report : LhReport)

/-- `audits.get(metric_id, {}).get('displayValue', 'N/A')`. -/
def get_metric (audits : List (String × Option String)) (id : String) : String :=
  ((audits.lookup id).getD none).getD "N/A"

/-- `get_score`: `f"{score * 100:.0f}"` when the score is present, `"0"`
otherwise (`categories.get(name, {}).get('score')`). -/
def get_score (categories : List (String × Option ℚ)) (name : String) : String :=
  match (categories.lookup name).getD none with
  | some s => formatZeroDec (s * 100)
  | none => "0"

/-- `run_single_lighthouse_audit`: the dict returned for one device given
the subprocess/parse outcome. -/
def run_single_lighthouse_audit (outcome : RunOutcome) : JVal :=
  match outcome with
  | .timeout => .jobj [("error", .jstr "Timeout")]
  | .exitError msg stderr => .jobj [("error", .jstr msg), ("stderr", .jstr stderr)]
  | .jsonError msg => .jobj [("error", .jstr ("JSON parsing error: " ++ msg))]
  | .ok r =>
      .jobj
        [("performance_score", .jstr (get_score r.categories "performance")),
         ("seo_score", .jstr (get_score r.categories "seo")),
         ("accessibility_score", .jstr (get_score r.categories "accessibility")),
         ("best_practices_score", .jstr (get_score r.categories "best-practices")),
         ("metrics", .jobj
           [("First Contentful Paint", .jstr (get_metric r.audits "first-contentful-paint")),
            ("Largest Contentful Paint", .jstr (get_metric r.audits "largest-contentful-paint")),
            ("Total Blocking Time", .jstr (get_metric r.audits "total-blocking-time")),
            ("Cumulative Layout Shift", .jstr (get_metric r.audits "cumulative-layout-shift")),
            ("Speed Index", .jstr (get_metric r.audits "speed-index"))]),
         ("full_report", r.toJVal)]

/-- `run_lighthouse_audits`: desktop run followed by mobile run.  The three
failure modes of `RunOutcome` are caught inside
`run_single_lighthouse_audit`, so neither run's failure reaches the other. -/
def run_lighthouse_audits (desktop mobile : RunOutcome) : JVal :=
  .jobj [("desktop", run_single_lighthouse_audit desktop),
         ("mobile", run_single_lighthouse_audit mobile)]

/-! ### SEO analyzer (`analyze_seo`) -/

/-- An `<img>` element: its `alt` attribute (absent → `img.get('alt', '')`
yields `""`). -/
structure Img where
  alt : Option String
deriving DecidableEq

/-- The aspects of the parsed document (`BeautifulSoup` object) the source
queries.  The HTML parse itself is external to the repository, so the parse
result is taken as an input. -/
structure Soup where
  /-- `soup.find('title')`: the text of the title element, when present. -/
  title : Option String
  /-- `soup.find('meta', attrs={'name': 'description'})`: when the tag is
  present, its optional `content` attribute. -/
  metaDescContent : Option (Option String)
  /-- `len(soup.find_all('h1'))` … `len(soup.find_all('h4'))`. -/
  h1 : Nat
  h2 : Nat
  h3 : Nat
  h4 : Nat
  /-- `soup.find_all('img')`. -/
  imgs : List Img
  /-- The `href` attributes of the document's `<a>` elements. -/
  anchorHrefs : List String

/-- `not img.get('alt', '').strip()`: the image counts as missing alt text. -/
def isMissingAlt (i : Img) : Bool := pyStrip (i.alt.getD "") == ""

/-- `analyze_seo`: the structured SEO result. -/
def analyze_seo (soup : Soup) : JVal :=
  let total := soup.imgs.length
  let missing := (soup.imgs.filter isMissingAlt).length
  .jobj
    [("title", .jobj
       [("text", .jstr (match soup.title with
                        | some t => pyStrip t
                        | none => "Not Found")),
        ("length", .jnum (match soup.title with
                          | some t => ((pyStrip t).length : ℚ)
                          | none => 0))]),
     ("meta_description", .jobj
       [("present", .jbool soup.metaDescContent.isSome),
        ("text", .jstr (match soup.metaDescContent with
                        | some c => pyStrip (c.getD "")
                        | none => "Not Found")),
        ("length", .jnum (match soup.metaDescContent with
                          | some c => ((pyStrip (c.getD "")).length : ℚ)
                          | none => 0))]),
     ("headings", .jobj
       [("h1", .jnum soup.h1), ("h2", .jnum soup.h2),
        ("h3", .jnum soup.h3), ("h4", .jnum soup.h4)]),
     ("images", .jobj
       [("total", .jnum total),
        ("missing_alt", .jnum missing),
        ("coverage_percent", .jstr
          (if soup.imgs.isEmpty then "100.0"
           else formatOneDec (((total : ℚ) - (missing : ℚ)) / (total : ℚ) * 100)))])]

/-! ### Technical checker (`analyze_technical`) -/

/-- Status glyph: `"✅" if b else bad`. -/
def statusGlyph (b : Bool) (bad : String) : JVal :=
  .jstr (if b then "✅" else bad)

/-- `analyze_technical`.  `page_content` is the string the orchestrator
passes in — the rendered HTML captured by `page.content()`.  `robotsStatus`
is the outcome of the `requests.get(urljoin(url, '/robots.txt'))` probe
(`none` models a `RequestException`). -/
def analyze_technical (soup : Soup) (url : String) (page_content : String)
    (robotsStatus : Option Nat) : JVal :=
  let robots_ok := robotsStatus == some 200
  let httpsOn := pyStartsWith "https://" url
  let contact := soup.anchorHrefs.any fun h => containsCI "contact" h
  let email := searchMatch emailAt page_content
  let phone := searchMatch phoneAt page_content
  let privacy := soup.anchorHrefs.any fun h => containsCI "privacy" h
  .jobj
    [("https_enabled", .jobj
       [("value", .jbool httpsOn), ("status", statusGlyph httpsOn "❌")]),
     ("has_contact_page", .jobj
       [("value", .jbool contact), ("status", statusGlyph contact "⚠️")]),
     ("has_email", .jobj
       [("value", .jbool email), ("status", statusGlyph email "⚠️")]),
     ("has_phone", .jobj
       [("value", .jbool phone), ("status", statusGlyph phone "⚠️")]),
     ("has_privacy_link", .jobj
       [("value", .jbool privacy), ("status", statusGlyph privacy "❌")]),
     ("has_robots_txt", .jobj
       [("value", .jbool robots_ok), ("status", statusGlyph robots_ok "⚠️")])]

/-! ### Recommendation generator (`generate_recommendations`) -/

/-- The outcome of the OpenAI call in `generate_recommendations`: either the
response content parsed by `json.loads`, or an exception `e` (API error or
parse error) with its message `str(e)` — everything the bare
`except Exception` catches. -/
inductive AiOutcome where
  | ok (parsed : JVal)
  | exn (msg : String)

/-- The dict returned when the OpenAI client is not configured
(`OPENAI_ENABLED` false). -/
def disabledResult : JVal :=
  .jobj [("summary", .jstr "OpenAI API key not configured."),
         ("actionItems", .jarr [.jstr "Enable OpenAI to get AI-powered recommendations."])]

/-- The dict returned from the `except Exception` handler. -/
def genericErrorResult : JVal :=
  .jobj [("summary", .jstr "Error generating recommendations."),
         ("actionItems", .jarr [])]

/-- The exception-message test selecting the oversized-prompt/rate-limit
error display: `"rate_limit_exceeded" in str(e) or "Request too large" in
str(e)`. -/
def isRateLimitMsg (msg : String) : Bool :=
  containsSubstr "rate_limit_exceeded" msg || containsSubstr "Request too large" msg

/-- The payload-trimming step of `generate_recommendations`: deep-copy the
audit data and `pop('full_report', None)` from the truthy
`performance.desktop` / `performance.mobile` entries.  The result is the
object serialized into the prompt. -/
def stripForPrompt (audit_data : JVal) : JVal :=
  if audit_data.getTruthy "performance" then
    audit_data.mapKey "performance" fun perf =>
      let perf1 := if perf.getTruthy "desktop"
                   then perf.mapKey "desktop" (fun d => d.pop "full_report")
                   else perf
      if perf1.getTruthy "mobile"
      then perf1.mapKey "mobile" (fun d => d.pop "full_report")
      else perf1
  else audit_data

/-- The `st.error` message of the oversized-prompt/rate-limit branch. -/
def rateLimitDisplay : String :=
  "AI request failed: The audit data is still too large for the model's token limit."

/-- `generate_recommendations`: given the enabled flag, the service
outcome and the merged audit data, returns the list of user-facing error
messages it displays and the recommendations value it returns.  Every
branch returns; no exception escapes the `try`/`except` boundary. -/
def generate_recommendations (enabled : Bool) (ai : AiOutcome) (audit_data : JVal) :
    List String × JVal :=
  if !enabled then ([], disabledResult)
  else
    let _prompt_payload := stripForPrompt audit_data
    match ai with
    | .ok parsed => ([], parsed)
    | .exn msg =>
        if isRateLimitMsg msg then ([rateLimitDisplay], genericErrorResult)
        else (["Failed to get AI recommendations: " ++ msg], genericErrorResult)

/-! ### Page fetch (`perform_full_audit`, Playwright block) -/

/-- The observable steps of the Playwright fetch block, in order of
occurrence. -/
inductive FetchEvent where
  | pwStart
  | browserLaunch
  | newPage
  | gotoNav
  | getContent
  | browserClose
  | pwStop
deriving DecidableEq, BEq

/-- Success or an exception for one Playwright call. -/
inductive StepR where
  | ok
  | fail (msg : String)

/-- The outcomes of the four Playwright calls inside the `with` block. -/
structure FetchWorld where
  launchR : StepR
  newPageR : StepR
  gotoR : StepR
  /-- `page.content()`: the rendered HTML, or an exception. -/
  contentR : Option String

/-- The Playwright fetch block of `perform_full_audit`:
`with sync_playwright() as p: …`.  Python's `with` statement runs the
context manager's exit handler (`pwStop`) on every exit, normal or
exceptional; an exception from the block is then caught by the surrounding
`except`, which returns `None`.  Returns the fetched HTML (if any) and the
trace of events that occurred before the block returned or propagated. -/
def fetchPage (w : FetchWorld) : Option String × List FetchEvent :=
  match w.launchR with
  | .fail _ => (none, [.pwStart, .pwStop])
  | .ok =>
    match w.newPageR with
    | .fail _ => (none, [.pwStart, .browserLaunch, .pwStop])
    | .ok =>
      match w.gotoR with
      | .fail _ => (none, [.pwStart, .browserLaunch, .newPage, .pwStop])
      | .ok =>
        match w.contentR with
        | none => (none, [.pwStart, .browserLaunch, .newPage, .gotoNav, .pwStop])
        | some html =>
            (some html,
             [.pwStart, .browserLaunch, .newPage, .gotoNav, .getContent,
              .browserClose, .pwStop])

/-- Modelled from the spec: tearing the browser down.  The spec requires the
launched browser to be torn down on every exit path; teardown happens either
through the explicit `browser.close()` call or through the
`sync_playwright` context-manager exit, which stops the Playwright driver
and with it every browser launched within it (library behaviour not in this
repository). -/
def tearsDownBrowser (trace : List FetchEvent) : Bool :=
  trace.contains FetchEvent.browserClose || trace.contains FetchEvent.pwStop

/-! ### Orchestrator (`perform_full_audit`) and UI handler -/

/-- All external outcomes one full audit run depends on. -/
structure PipelineWorld where
  /-- The Playwright fetch block's inputs. -/
  fetch : FetchWorld
  /-- The parse `BeautifulSoup(page_content, 'html.parser')` of the fetched
  HTML, taken as an oracle (the parser is external to the repository). -/
  soup : Soup
  /-- Outcome of the desktop Lighthouse run. -/
  desktopRun : RunOutcome
  /-- Outcome of the mobile Lighthouse run. -/
  mobileRun : RunOutcome
  /-- Status code of the robots.txt probe (`none` = request exception). -/
  robotsStatus : Option Nat
  /-- `OPENAI_ENABLED`. -/
  aiEnabled : Bool
  /-- Outcome of the OpenAI call. -/
  ai : AiOutcome

/-- The merged audit data at the point `generate_recommendations` is called:
`{"url": …, "performance": …, "seo": …, "technical": …}`. -/
def assembledAudit (url : String) (w : PipelineWorld) (page_content : String) : JVal :=
  .jobj [("url", .jstr url),
         ("performance", run_lighthouse_audits w.desktopRun w.mobileRun),
         ("seo", analyze_seo w.soup),
         ("technical", analyze_technical w.soup url page_content w.robotsStatus)]

/-- `perform_full_audit`: `None` when the Playwright fetch fails, otherwise
the five-field report.  Note that the technical checker receives
`page_content` — the raw rendered HTML string. -/
def perform_full_audit (url : String) (w : PipelineWorld) : Option JVal :=
  match (fetchPage w.fetch).1 with
  | none => none
  | some page_content =>
      let pre := assembledAudit url w page_content
      let recs := (generate_recommendations w.aiEnabled w.ai pre).2
      some (.jobj [("url", .jstr url),
                   ("performance", run_lighthouse_audits w.desktopRun w.mobileRun),
                   ("seo", analyze_seo w.soup),
                   ("technical", analyze_technical w.soup url page_content w.robotsStatus),
                   ("recommendations", recs)])

/-- The external calls one (uncached) audit run makes, in order. -/
inductive Effect where
  | playwrightFetch (url : String)
  | lighthouse (url device : String)
  | robotsProbe (url : String)
  | aiCall
deriving DecidableEq, BEq

/-- The effects `perform_full_audit` performs: the fetch always runs; the
remaining steps run only when the fetch succeeded. -/
def auditEffects (url : String) (w : PipelineWorld) : List Effect :=
  match (fetchPage w.fetch).1 with
  | none => [.playwrightFetch url]
  | some _ =>
      [.playwrightFetch url, .lighthouse url "desktop", .lighthouse url "mobile",
       .robotsProbe url] ++ (if w.aiEnabled then [Effect.aiCall] else [])

/-- Result of pressing "Analyze Website". -/
inductive UiResult where
  | validationError (msg : String)
  | audited (report : Option JVal)

/-- The "Analyze Website" click handler: the guard
`if not url_to_audit.startswith("http")` rejects with an error message and
performs nothing; otherwise `perform_full_audit` runs. -/
def analyzeWebsite (url : String) (w : PipelineWorld) : UiResult × List Effect :=
  if !pyStartsWith "http" url then
    (.validationError "Please enter a valid URL (e.g., https://www.example.com)", [])
  else
    (.audited (perform_full_audit url w), auditEffects url w)

/-- The property as the spec words it: the input carries an HTTP or HTTPS
scheme. Stated from the spec, for comparison with the code's guard. -/
def specHasHttpScheme (url : String) : Bool :=
  pyStartsWith "http://" url || pyStartsWith "https://" url

/-! ### Result cache (`@st.cache_data(ttl=3600)`) -/

/-- One cache entry: when it was stored and the cached return value. -/
structure CacheEntry where
  storedAt : Nat
  value : Option JVal

/-- Modelled from the spec: the semantics of Streamlit's
`@st.cache_data(ttl=3600)` decorator on `perform_full_audit` (the cache
machinery lives in the Streamlit library, not in this repository).  Results
are keyed by the URL argument; a lookup hits iff an entry for the same key
exists and is younger than the one-hour TTL; on a hit the cached value is
returned and the wrapped body — and hence every external call it makes —
does not run.  Returns the report, the updated cache, and the effects
performed. -/
def cachedPerformFullAudit (cache : List (String × CacheEntry)) (now : Nat)
    (url : String) (w : PipelineWorld) :
    Option JVal × List (String × CacheEntry) × List Effect :=
  match cache.lookup url with
  | some e =>
      if now - e.storedAt < 3600 then (e.value, cache, [])
      else
        let r := perform_full_audit url w
        (r, (url, ⟨now, r⟩) :: cache, auditEffects url w)
  | none =>
      let r := perform_full_audit url w
      (r, (url, ⟨now, r⟩) :: cache, auditEffects url w)

/-- Modelled from the spec: the "derived plain-text content" of a rendered
page — the document's text with the markup tags removed.  The source
derives no such text: it passes the raw HTML string itself to the
detectors. -/
def stripTags : List Char → Bool → List Char
  | [], _ => []
  | c :: rest, true => if c == '>' then stripTags rest false else stripTags rest true
  | c :: rest, false => if c == '<' then stripTags rest true else c :: stripTags rest false

/-- Modelled from the spec: plain-text content of an HTML string. -/
def specPlainText (html : String) : String :=
  ⟨stripTags html.toList false⟩

/-! ### Example inputs used by witnesses and counterexamples -/

/-- A parse result with ten images, three of which lack usable alt text. -/
def soupTenThree : Soup :=
  { title := some "Example Domain", metaDescContent := some (some "An example page."),
    h1 := 1, h2 := 0, h3 := 0, h4 := 0,
    imgs := List.replicate 7 ⟨some "a picture"⟩ ++ List.replicate 3 ⟨none⟩,
    anchorHrefs := ["/contact", "/privacy"] }

/-- A small parse result with no images. -/
def soupNoImgs : Soup :=
  { title := none, metaDescContent := none, h1 := 0, h2 := 0, h3 := 0, h4 := 0,
    imgs := [], anchorHrefs := [] }

/-- A Lighthouse report with the claims' concrete score. -/
def exReport : LhReport :=
  { audits := [("first-contentful-paint", some "1.2 s")],
    categories := [("performance", some (873/1000)), ("seo", some 1)] }

/-- A fetch whose navigation succeeds. -/
def exFetchOk : FetchWorld :=
  { launchR := .ok, newPageR := .ok, gotoR := .ok,
    contentR := some "<html><body>hello</body></html>" }

/-- A fetch whose navigation raises. -/
def exFetchFail : FetchWorld :=
  { launchR := .ok, newPageR := .ok, gotoR := .fail "Timeout 60000ms exceeded",
    contentR := none }

/-- A pipeline world whose fetch succeeds and whose recommendation call
fails. -/
def exWorld : PipelineWorld :=
  { fetch := exFetchOk, soup := soupNoImgs, desktopRun := .ok exReport,
    mobileRun := .ok exReport, robotsStatus := some 200, aiEnabled := false,
    ai := .exn "connection error" }

/-- A pipeline world whose fetch fails. -/
def exWorldFetchFail : PipelineWorld :=
  { fetch := exFetchFail, soup := soupNoImgs, desktopRun := .timeout,
    mobileRun := .timeout, robotsStatus := none, aiEnabled := false,
    ai := .exn "unused" }

/-! ### Helper lemmas -/

theorem lookup_filter_ne {β : Type} (l : List (String × β)) (k target : String)
    (h : k ≠ target) :
    (l.filter fun kv => kv.1 != target).lookup k = l.lookup k := by
  induction l with
  | nil => rfl
  | cons a rest ih =>
    obtain ⟨a1, a2⟩ := a
    by_cases ha : a1 = target
    · have h1 : (a1 != target) = false := by simp [ha]
      have h2 : (k == a1) = false := by rw [ha]; simp [h]
      simp [List.filter_cons, h1, List.lookup, h2, ih]
    · have h1 : (a1 != target) = true := by simp [ha]
      cases hke : (k == a1) <;> simp [List.filter_cons, h1, List.lookup, hke, ih]

theorem lookup_filter_self {β : Type} (l : List (String × β)) (target : String) :
    (l.filter fun kv => kv.1 != target).lookup target = none := by
  induction l with
  | nil => rfl
  | cons a rest ih =>
    obtain ⟨a1, a2⟩ := a
    by_cases ha : a1 = target
    · have h1 : (a1 != target) = false := by simp [ha]
      simp [List.filter_cons, h1, ih]
    · have h1 : (a1 != target) = true := by simp [ha]
      have h2 : (target == a1) = false := by simp [Ne.symm ha]
      simp [List.filter_cons, h1, List.lookup, h2, ih]

theorem pop_get_ne (v : JVal) (k target : String) (h : k ≠ target) :
    (v.pop target).get k = v.get k := by
  cases v <;> simp [JVal.pop, JVal.get, lookup_filter_ne, h]

theorem pop_get_self (l : List (String × JVal)) (target : String) :
    ((JVal.jobj l).pop target).get target = none := by
  simp [JVal.pop, JVal.get, lookup_filter_self]

/-! ### Claims -/

unseal Rat.mul Rat.add Rat.sub Rat.inv in
/-- C4: for every parsed page, the SEO analyzer's image alt-text coverage
equals `(total − missing_alt) / total × 100` rendered as a one-decimal
string, and equals `"100.0"` when the page has zero images; in particular
10 images with 3 missing alt text yield `"70.0"`. -/
theorem C4_image_alt_coverage :
    (∀ soup : Soup,
      (soup.imgs = [] →
        ((analyze_seo soup).get "images").bind (fun v => v.get "coverage_percent")
          = some (.jstr "100.0"))
      ∧ (soup.imgs ≠ [] →
        ((analyze_seo soup).get "images").bind (fun v => v.get "coverage_percent")
          = some (.jstr (formatOneDec
              (((soup.imgs.length : ℚ) - ((soup.imgs.filter isMissingAlt).length : ℚ))
                / (soup.imgs.length : ℚ) * 100)))))
    ∧ ((analyze_seo soupTenThree).get "images").bind (fun v => v.get "coverage_percent")
        = some (.jstr "70.0") := by
  refine ⟨fun soup => ⟨fun h => ?_, fun h => ?_⟩, ?_⟩
  · simp [analyze_seo, JVal.get, List.lookup, h]
  · have hne : soup.imgs.isEmpty = false := by
      cases hs : soup.imgs with
      | nil => exact absurd hs h
      | cons a l => rfl
    simp [analyze_seo, JVal.get, List.lookup, hne]
  · have e1 : ((soupTenThree.imgs.length : ℚ)) = 10 := by
      have h10 : soupTenThree.imgs.length = 10 := by decide
      rw [h10]; norm_num
    have e2 : (((soupTenThree.imgs.filter isMissingAlt).length : ℚ)) = 3 := by
      have h3 : (soupTenThree.imgs.filter isMissingAlt).length = 3 := by decide
      rw [h3]; norm_num
    have h70 : formatOneDec ((((soupTenThree.imgs.length : ℚ))
        - (((soupTenThree.imgs.filter isMissingAlt).length : ℚ)))
        / ((soupTenThree.imgs.length : ℚ)) * 100) = "70.0" := by
      rw [e1, e2]; decide
    have hne : soupTenThree.imgs.isEmpty = false := by decide
    simp [analyze_seo, JVal.get, List.lookup, hne, h70]

unseal Rat.mul Rat.add Rat.sub Rat.inv in
/-- Witness for C4 at the concrete ten-image page: the nonempty-images
hypothesis is discharged and the formula evaluates to `"70.0"`. -/
theorem C4_witness :
    soupTenThree.imgs ≠ [] ∧
    ((analyze_seo soupTenThree).get "images").bind (fun v => v.get "coverage_percent")
      = some (.jstr (formatOneDec (((soupTenThree.imgs.length : ℚ)
          - ((soupTenThree.imgs.filter isMissingAlt).length : ℚ))
          / (soupTenThree.imgs.length : ℚ) * 100))) := by
  refine ⟨by decide, ?_⟩
  exact (C4_image_alt_coverage.1 soupTenThree).2 (by decide)

unseal Rat.mul Rat.add Rat.sub Rat.inv in
/-- C5: for every category of a parsed performance report, the extracted
score is the raw `[0,1]` score times 100 formatted with zero decimals
(`0.873` yields `"87"`); a missing score yields `"0"`; and the success
record carries these formatted scores in its four score fields. -/
theorem C5_score_formatting :
    (∀ (cats : List (String × Option ℚ)) (name : String) (q : ℚ),
        (cats.lookup name = some (some q) → get_score cats name = formatZeroDec (q * 100))
        ∧ (cats.lookup name = some none → get_score cats name = "0")
        ∧ (cats.lookup name = none → get_score cats name = "0"))
    ∧ (∀ r : LhReport,
        (run_single_lighthouse_audit (.ok r)).get "performance_score"
            = some (.jstr (get_score r.categories "performance"))
        ∧ (run_single_lighthouse_audit (.ok r)).get "seo_score"
            = some (.jstr (get_score r.categories "seo"))
        ∧ (run_single_lighthouse_audit (.ok r)).get "accessibility_score"
            = some (.jstr (get_score r.categories "accessibility"))
        ∧ (run_single_lighthouse_audit (.ok r)).get "best_practices_score"
            = some (.jstr (get_score r.categories "best-practices")))
    ∧ get_score [("performance", some (873/1000))] "performance" = "87"
    ∧ get_score [("performance", none)] "performance" = "0"
    ∧ get_score [] "performance" = "0" := by
  refine ⟨fun cats name q => ⟨fun h => ?_, fun h => ?_, fun h => ?_⟩,
          fun r => ⟨?_, ?_, ?_, ?_⟩, ?_, ?_, ?_⟩
  · simp [get_score, h]
  · simp [get_score, h]
  · simp [get_score, h]
  · simp [run_single_lighthouse_audit, JVal.get, List.lookup]
  · simp [run_single_lighthouse_audit, JVal.get, List.lookup]
  · simp [run_single_lighthouse_audit, JVal.get, List.lookup]
  · simp [run_single_lighthouse_audit, JVal.get, List.lookup]
  · decide
  · decide
  · decide

unseal Rat.mul Rat.add Rat.sub Rat.inv in
/-- Witness for C5: the hypotheses are discharged at a concrete category
list holding the score 0.873, which formats to `"87"`. -/
theorem C5_witness :
    ([("performance", some ((873 : ℚ)/1000))].lookup "performance" = some (some ((873 : ℚ)/1000)))
    ∧ get_score [("performance", some ((873 : ℚ)/1000))] "performance"
        = formatZeroDec ((873 : ℚ)/1000 * 100)
    ∧ formatZeroDec ((873 : ℚ)/1000 * 100) = "87" := by
  refine ⟨by decide, ?_, by decide⟩
  exact (C5_score_formatting.1 [("performance", some ((873 : ℚ)/1000))] "performance"
    ((873 : ℚ)/1000)).1 (by decide)

/-- C3: each device's entry in the performance result depends only on that
device's run outcome — a timeout yields the `"Timeout"` error marker, a
non-zero exit yields an error marker carrying the captured stderr, malformed
JSON yields a parse-error marker — and the sibling device's entry is
unaffected and, on success, still fully populated. -/
theorem C3_device_failure_isolation :
    (∀ d m : RunOutcome,
        (run_lighthouse_audits d m).get "desktop" = some (run_single_lighthouse_audit d)
        ∧ (run_lighthouse_audits d m).get "mobile" = some (run_single_lighthouse_audit m))
    ∧ (∀ d d2 m : RunOutcome,
        (run_lighthouse_audits d m).get "mobile" = (run_lighthouse_audits d2 m).get "mobile")
    ∧ (∀ d m m2 : RunOutcome,
        (run_lighthouse_audits d m).get "desktop" = (run_lighthouse_audits d m2).get "desktop")
    ∧ run_single_lighthouse_audit .timeout = .jobj [("error", .jstr "Timeout")]
    ∧ (∀ msg stderr : String,
        run_single_lighthouse_audit (.exitError msg stderr)
          = .jobj [("error", .jstr msg), ("stderr", .jstr stderr)])
    ∧ (∀ msg : String,
        run_single_lighthouse_audit (.jsonError msg)
          = .jobj [("error", .jstr ("JSON parsing error: " ++ msg))])
    ∧ (∀ (d : RunOutcome) (r : LhReport),
        ((run_lighthouse_audits d (.ok r)).get "mobile").bind (fun v => v.get "performance_score")
          = some (.jstr (get_score r.categories "performance"))
        ∧ ((run_lighthouse_audits d (.ok r)).get "mobile").bind (fun v => v.get "full_report")
          = some r.toJVal) := by
  refine ⟨fun d m => ⟨?_, ?_⟩, fun d d2 m => ?_, fun d m m2 => ?_, rfl,
          fun msg stderr => rfl, fun msg => rfl, fun d r => ⟨?_, ?_⟩⟩
  · simp [run_lighthouse_audits, JVal.get, List.lookup]
  · simp [run_lighthouse_audits, JVal.get, List.lookup]
  · simp [run_lighthouse_audits, JVal.get, List.lookup]
  · simp [run_lighthouse_audits, JVal.get, List.lookup]
  · simp [run_lighthouse_audits, run_single_lighthouse_audit, JVal.get, List.lookup]
  · simp [run_lighthouse_audits, run_single_lighthouse_audit, JVal.get, List.lookup]

/-- C1: whenever the page fetch succeeds, the assembled report carries all
five top-level fields — url, performance, seo, technical, recommendations —
and no other key; each is populated with the section's data (or that
section's in-band error marker). -/
theorem C1_report_complete :
    ∀ (url : String) (w : PipelineWorld) (html : String),
      (fetchPage w.fetch).1 = some html →
      ∃ d, perform_full_audit url w = some d
        ∧ d.topKeys = ["url", "performance", "seo", "technical", "recommendations"]
        ∧ d.get "url" = some (.jstr url)
        ∧ d.get "performance" = some (run_lighthouse_audits w.desktopRun w.mobileRun)
        ∧ d.get "seo" = some (analyze_seo w.soup)
        ∧ d.get "technical" = some (analyze_technical w.soup url html w.robotsStatus)
        ∧ d.get "recommendations"
            = some (generate_recommendations w.aiEnabled w.ai
                (assembledAudit url w html)).2 := by
  intro url w html hfetch
  refine ⟨.jobj [("url", .jstr url),
      ("performance", run_lighthouse_audits w.desktopRun w.mobileRun),
      ("seo", analyze_seo w.soup),
      ("technical", analyze_technical w.soup url html w.robotsStatus),
      ("recommendations",
        (generate_recommendations w.aiEnabled w.ai (assembledAudit url w html)).2)],
    ?_, ?_, ?_, ?_, ?_, ?_, ?_⟩
  · simp [perform_full_audit, hfetch, assembledAudit]
  all_goals simp [JVal.topKeys, JVal.get, List.lookup]

/-- Witness for C1 at a concrete world whose fetch succeeds: the report
exists and is structurally complete. -/
theorem C1_witness :
    (fetchPage exWorld.fetch).1 = some "<html><body>hello</body></html>"
    ∧ ∃ d, perform_full_audit "https://example.com" exWorld = some d
        ∧ d.topKeys = ["url", "performance", "seo", "technical", "recommendations"]
        ∧ d.get "url" = some (.jstr "https://example.com")
        ∧ d.get "performance"
            = some (run_lighthouse_audits exWorld.desktopRun exWorld.mobileRun)
        ∧ d.get "seo" = some (analyze_seo exWorld.soup)
        ∧ d.get "technical"
            = some (analyze_technical exWorld.soup "https://example.com"
                "<html><body>hello</body></html>" exWorld.robotsStatus)
        ∧ d.get "recommendations"
            = some (generate_recommendations exWorld.aiEnabled exWorld.ai
                (assembledAudit "https://example.com" exWorld
                  "<html><body>hello</body></html>")).2 :=
  ⟨rfl, C1_report_complete "https://example.com" exWorld
    "<html><body>hello</body></html>" rfl⟩

/-- C7: the recommendation step never raises out of its boundary and never
aborts the audit: with the client unconfigured it returns the static
placeholder with exactly one instructive action item; a rate-limit or
oversized-prompt error surfaces the distinct user-facing message and a
generic failure result; any other error yields the generic failure summary
with an empty action-item list; and the rest of the report does not depend
on the recommendation outcome. -/
theorem C7_recommendations_degrade :
    (∀ (d : JVal) (ai : AiOutcome),
        generate_recommendations false ai d = ([], disabledResult))
    ∧ disabledResult.get "actionItems"
        = some (.jarr [.jstr "Enable OpenAI to get AI-powered recommendations."])
    ∧ (∀ (d : JVal) (msg : String), isRateLimitMsg msg = true →
        generate_recommendations true (.exn msg) d
          = ([rateLimitDisplay], genericErrorResult))
    ∧ (∀ (d : JVal) (msg : String), isRateLimitMsg msg = false →
        generate_recommendations true (.exn msg) d
          = (["Failed to get AI recommendations: " ++ msg], genericErrorResult))
    ∧ genericErrorResult.get "actionItems" = some (.jarr [])
    ∧ (∀ (url html : String) (w : PipelineWorld) (e1 e2 : Bool) (a1 a2 : AiOutcome),
        (fetchPage w.fetch).1 = some html →
        ∃ d1 d2,
          perform_full_audit url { w with aiEnabled := e1, ai := a1 } = some d1
          ∧ perform_full_audit url { w with aiEnabled := e2, ai := a2 } = some d2
          ∧ d1.get "performance" = d2.get "performance"
          ∧ d1.get "seo" = d2.get "seo"
          ∧ d1.get "technical" = d2.get "technical") := by
  refine ⟨fun d ai => rfl, rfl, fun d msg h => ?_, fun d msg h => ?_, rfl,
          fun url html w e1 e2 a1 a2 hfetch => ?_⟩
  · simp [generate_recommendations, h]
  · simp [generate_recommendations, h]
  · refine ⟨.jobj [("url", .jstr url),
        ("performance", run_lighthouse_audits w.desktopRun w.mobileRun),
        ("seo", analyze_seo w.soup),
        ("technical", analyze_technical w.soup url html w.robotsStatus),
        ("recommendations", (generate_recommendations e1 a1
          (assembledAudit url { w with aiEnabled := e1, ai := a1 } html)).2)],
      .jobj [("url", .jstr url),
        ("performance", run_lighthouse_audits w.desktopRun w.mobileRun),
        ("seo", analyze_seo w.soup),
        ("technical", analyze_technical w.soup url html w.robotsStatus),
        ("recommendations", (generate_recommendations e2 a2
          (assembledAudit url { w with aiEnabled := e2, ai := a2 } html)).2)],
      ?_, ?_, ?_, ?_, ?_⟩
    · simp [perform_full_audit, hfetch]
    · simp [perform_full_audit, hfetch]
    all_goals simp [JVal.get, List.lookup]

/-- Witness for C7: the hypotheses are discharged at concrete error
messages and at a concrete world whose fetch succeeds. -/
theorem C7_witness :
    generate_recommendations true (.exn "Error code 429: rate_limit_exceeded") JVal.jnull
      = ([rateLimitDisplay], genericErrorResult)
    ∧ generate_recommendations true (.exn "boom") JVal.jnull
      = (["Failed to get AI recommendations: " ++ "boom"], genericErrorResult)
    ∧ ∃ d1 d2,
        perform_full_audit "https://example.com"
            { exWorld with aiEnabled := false, ai := .exn "x" } = some d1
        ∧ perform_full_audit "https://example.com"
            { exWorld with aiEnabled := true, ai := .exn "y" } = some d2
        ∧ d1.get "performance" = d2.get "performance"
        ∧ d1.get "seo" = d2.get "seo"
        ∧ d1.get "technical" = d2.get "technical" :=
  ⟨(C7_recommendations_degrade.2.2.1 JVal.jnull
      "Error code 429: rate_limit_exceeded" (by decide)),
   (C7_recommendations_degrade.2.2.2.1 JVal.jnull "boom" (by decide)),
   (C7_recommendations_degrade.2.2.2.2.2 "https://example.com"
      "<html><body>hello</body></html>" exWorld false true (.exn "x") (.exn "y") rfl)⟩

/-- C2 is refuted at the input `"httpx"`: it carries no HTTP/HTTPS scheme
prefix, yet the handler does not reject it — the audit proceeds and the
Fetcher is invoked (the guard only tests the literal prefix `"http"`). -/
theorem C2_counterexample :
    specHasHttpScheme "httpx" = false
    ∧ (analyzeWebsite "httpx" exWorldFetchFail).1 = .audited none
    ∧ (analyzeWebsite "httpx" exWorldFetchFail).2 = [Effect.playwrightFetch "httpx"] := by
  refine ⟨by decide, rfl, rfl⟩

/-- C2 amended: the guard is `url.startswith("http")` — every input not
starting with the literal `"http"` is rejected with the validation error
and no effects; every input starting with `"http"` (which includes every
input with a real `http://` or `https://` prefix) proceeds to the audit. -/
theorem C2_amended :
    ∀ (url : String) (w : PipelineWorld),
      (pyStartsWith "http" url = false →
        analyzeWebsite url w
          = (.validationError "Please enter a valid URL (e.g., https://www.example.com)", []))
      ∧ (pyStartsWith "http" url = true →
        analyzeWebsite url w = (.audited (perform_full_audit url w), auditEffects url w)) := by
  intro url w
  constructor <;> intro h <;> simp [analyzeWebsite, h]

/-- Witness for C2 amended: a schemeless input is rejected with no effects;
an HTTPS input proceeds. -/
theorem C2_witness :
    analyzeWebsite "ftp://example.com" exWorldFetchFail
      = (.validationError "Please enter a valid URL (e.g., https://www.example.com)", [])
    ∧ analyzeWebsite "https://www.example.com" exWorld
      = (.audited (perform_full_audit "https://www.example.com" exWorld),
         auditEffects "https://www.example.com" exWorld) :=
  ⟨(C2_amended "ftp://example.com" exWorldFetchFail).1 (by decide),
   (C2_amended "https://www.example.com" exWorld).2 (by decide)⟩

/-- C9: on every exit path of the Playwright fetch block — including an
exception raised during navigation — the browser is torn down (via the
explicit close or the context-manager exit) before the block returns or
propagates failure; in particular a navigation failure returns no page and
still tears the launched browser down. -/
theorem C9_browser_teardown :
    (∀ w : FetchWorld, tearsDownBrowser (fetchPage w).2 = true)
    ∧ (∀ (msg : String) (c : Option String),
        (fetchPage { launchR := StepR.ok, newPageR := StepR.ok, gotoR := StepR.fail msg,
                     contentR := c }).1 = none
        ∧ (fetchPage { launchR := StepR.ok, newPageR := StepR.ok, gotoR := StepR.fail msg,
                       contentR := c }).2.contains FetchEvent.browserLaunch = true
        ∧ tearsDownBrowser
            (fetchPage { launchR := StepR.ok, newPageR := StepR.ok,
                         gotoR := StepR.fail msg, contentR := c }).2 = true) := by
  constructor
  · intro w
    obtain ⟨l, n, g, c⟩ := w
    cases l <;> cases n <;> cases g <;> cases c <;> rfl
  · intro msg c
    exact ⟨rfl, rfl, rfl⟩

/-- C8 (cache semantics modelled from the spec): two audit requests for the
same URL within the one-hour cache window return identical reports, and the
second performs no external calls — in particular it re-invokes neither the
Fetcher nor the Performance Auditor. -/
theorem C8_cache_window :
    ∀ (cache0 : List (String × CacheEntry)) (t0 t1 : Nat) (url : String)
      (w w2 : PipelineWorld),
      cache0.lookup url = none →
      t1 - t0 < 3600 →
      (cachedPerformFullAudit ((cachedPerformFullAudit cache0 t0 url w).2.1) t1 url w2).1
        = (cachedPerformFullAudit cache0 t0 url w).1
      ∧ (cachedPerformFullAudit ((cachedPerformFullAudit cache0 t0 url w).2.1) t1 url w2).2.2
        = [] := by
  intro cache0 t0 t1 url w w2 h0 ht
  simp [cachedPerformFullAudit, h0, List.lookup, ht]

/-- Witness for C8: a first request on the empty cache followed by a second
request ten seconds later returns the identical report with no effects. -/
theorem C8_witness :
    (cachedPerformFullAudit
        ((cachedPerformFullAudit [] 0 "https://example.com" exWorld).2.1)
        10 "https://example.com" exWorld).1
      = (cachedPerformFullAudit [] 0 "https://example.com" exWorld).1
    ∧ (cachedPerformFullAudit
        ((cachedPerformFullAudit [] 0 "https://example.com" exWorld).2.1)
        10 "https://example.com" exWorld).2.2 = [] :=
  C8_cache_window [] 0 10 "https://example.com" exWorld exWorld rfl (by decide)

/-- The HTML of a page whose markup carries an email address inside an
attribute while its rendered text (`"hello"`) contains none. -/
def cxHtml : String := "<img alt=\"a@b.co\">hello"

/-- C10 is refuted: the detectors run over the raw rendered HTML string
(`page_content = page.content()`), not over derived plain text.  For a page
whose markup carries an email address only inside an attribute, the checker
reports `has_email = true` although the email regex does not match the
page's derived plain-text content. -/
theorem C10_counterexample :
    searchMatch emailAt (specPlainText cxHtml) = false
    ∧ ((analyze_technical soupNoImgs "https://x.example" cxHtml (some 200)).get
        "has_email").bind (fun v => v.get "value") = some (.jbool true) :=
  ⟨by decide, rfl⟩

/-- C10 amended: the detectors operate on the raw rendered HTML string the
orchestrator passes as `page_content` (the same string the DOM is parsed
from), not on derived plain text: for every audited page, `has_email` is
true exactly when the email regex matches the fetched HTML and `has_phone`
exactly when the phone regex matches it. -/
theorem C10_amended :
    ∀ (url : String) (w : PipelineWorld) (html : String),
      (fetchPage w.fetch).1 = some html →
      ∃ d, perform_full_audit url w = some d
        ∧ (d.get "technical").bind (fun t => (t.get "has_email").bind (fun v => v.get "value"))
            = some (.jbool (searchMatch emailAt html))
        ∧ (d.get "technical").bind (fun t => (t.get "has_phone").bind (fun v => v.get "value"))
            = some (.jbool (searchMatch phoneAt html)) := by
  intro url w html hfetch
  refine ⟨.jobj [("url", .jstr url),
      ("performance", run_lighthouse_audits w.desktopRun w.mobileRun),
      ("seo", analyze_seo w.soup),
      ("technical", analyze_technical w.soup url html w.robotsStatus),
      ("recommendations",
        (generate_recommendations w.aiEnabled w.ai (assembledAudit url w html)).2)],
    ?_, ?_, ?_⟩
  · simp [perform_full_audit, hfetch, assembledAudit]
  all_goals simp [JVal.get, List.lookup, analyze_technical]

/-- Witness for C10 amended at a concrete world: the audit exists and both
detector values equal the regex results on the fetched HTML. -/
theorem C10_witness :
    ∃ d, perform_full_audit "https://example.com" exWorld = some d
      ∧ (d.get "technical").bind (fun t => (t.get "has_email").bind (fun v => v.get "value"))
          = some (.jbool (searchMatch emailAt "<html><body>hello</body></html>"))
      ∧ (d.get "technical").bind (fun t => (t.get "has_phone").bind (fun v => v.get "value"))
          = some (.jbool (searchMatch phoneAt "<html><body>hello</body></html>")) :=
  C10_amended "https://example.com" exWorld "<html><body>hello</body></html>" rfl

theorem stripForPrompt_assembled (url html : String) (w : PipelineWorld) :
    stripForPrompt (assembledAudit url w html)
      = .jobj [("url", .jstr url),
               ("performance", .jobj
                 [("desktop", (run_single_lighthouse_audit w.desktopRun).pop "full_report"),
                  ("mobile", (run_single_lighthouse_audit w.mobileRun).pop "full_report")]),
               ("seo", analyze_seo w.soup),
               ("technical", analyze_technical w.soup url html w.robotsStatus)] := by
  obtain ⟨f, s, dr, mr, rs, ae, ai⟩ := w
  cases dr <;> cases mr <;>
    simp [stripForPrompt, assembledAudit, run_lighthouse_audits, JVal.getTruthy,
          JVal.get, JVal.truthy, JVal.mapKey, List.lookup, run_single_lighthouse_audit,
          JVal.pop]

theorem full_report_notin_pop_device (o : RunOutcome) :
    "full_report" ∉ ((run_single_lighthouse_audit o).pop "full_report").allKeys := by
  cases o <;>
    simp [run_single_lighthouse_audit, JVal.pop, List.filter_cons, JVal.allKeys,
          allKeysKvs, allKeysList, LhReport.toJVal]

theorem full_report_notin_seo (s : Soup) :
    "full_report" ∉ (analyze_seo s).allKeys := by
  simp [analyze_seo, JVal.allKeys, allKeysKvs, allKeysList]

theorem full_report_notin_tech (s : Soup) (url html : String) (rs : Option Nat) :
    "full_report" ∉ (analyze_technical s url html rs).allKeys := by
  simp [analyze_technical, JVal.allKeys, allKeysKvs, allKeysList, statusGlyph]

/-- C6: the payload serialized into the recommendation prompt is the merged
audit with the raw Lighthouse reports stripped: no `full_report` key occurs
anywhere in it, every other device field and every other section is carried
over unchanged, and the original merged audit object still holds its raw
reports. -/
theorem C6_prompt_strips_raw_reports :
    ∀ (url html : String) (w : PipelineWorld),
      ("full_report" ∈ (stripForPrompt (assembledAudit url w html)).allKeys → False)
      ∧ (stripForPrompt (assembledAudit url w html)).get "url"
          = (assembledAudit url w html).get "url"
      ∧ (stripForPrompt (assembledAudit url w html)).get "seo"
          = (assembledAudit url w html).get "seo"
      ∧ (stripForPrompt (assembledAudit url w html)).get "technical"
          = (assembledAudit url w html).get "technical"
      ∧ (∀ k : String, k ≠ "full_report" →
          (((stripForPrompt (assembledAudit url w html)).get "performance").bind
              (fun p => p.get "desktop")).bind (fun v => v.get k)
            = (((assembledAudit url w html).get "performance").bind
              (fun p => p.get "desktop")).bind (fun v => v.get k)
          ∧ (((stripForPrompt (assembledAudit url w html)).get "performance").bind
              (fun p => p.get "mobile")).bind (fun v => v.get k)
            = (((assembledAudit url w html).get "performance").bind
              (fun p => p.get "mobile")).bind (fun v => v.get k))
      ∧ (∀ r : LhReport, w.desktopRun = .ok r →
          (((assembledAudit url w html).get "performance").bind
              (fun p => p.get "desktop")).bind (fun v => v.get "full_report")
            = some r.toJVal)
      ∧ (∀ r : LhReport, w.mobileRun = .ok r →
          (((assembledAudit url w html).get "performance").bind
              (fun p => p.get "mobile")).bind (fun v => v.get "full_report")
            = some r.toJVal) := by
  intro url html w
  refine ⟨?_, ?_, ?_, ?_, fun k hk => ⟨?_, ?_⟩, fun r hr => ?_, fun r hr => ?_⟩
  · intro hmem
    rw [stripForPrompt_assembled] at hmem
    simp [JVal.allKeys, allKeysKvs, allKeysList] at hmem
    rcases hmem with h | h | h
    · exact full_report_notin_pop_device w.desktopRun h
    · exact full_report_notin_pop_device w.mobileRun h
    · rcases h with h | h
      · exact full_report_notin_seo w.soup h
      · exact full_report_notin_tech w.soup url html w.robotsStatus h
  · rw [stripForPrompt_assembled]
    simp [assembledAudit, JVal.get, List.lookup]
  · rw [stripForPrompt_assembled]
    simp [assembledAudit, JVal.get, List.lookup]
  · rw [stripForPrompt_assembled]
    simp [assembledAudit, JVal.get, List.lookup]
  · rw [stripForPrompt_assembled]
    show ((run_single_lighthouse_audit w.desktopRun).pop "full_report").get k
        = (run_single_lighthouse_audit w.desktopRun).get k
    exact pop_get_ne _ _ _ hk
  · rw [stripForPrompt_assembled]
    show ((run_single_lighthouse_audit w.mobileRun).pop "full_report").get k
        = (run_single_lighthouse_audit w.mobileRun).get k
    exact pop_get_ne _ _ _ hk
  · simp [assembledAudit, run_lighthouse_audits, hr, run_single_lighthouse_audit,
          JVal.get, List.lookup]
  · simp [assembledAudit, run_lighthouse_audits, hr, run_single_lighthouse_audit,
          JVal.get, List.lookup]

/-- Witness for C6: the hypotheses are discharged at a concrete key and at
a concrete world whose desktop and mobile runs both succeeded. -/
theorem C6_witness :
    (((stripForPrompt (assembledAudit "https://example.com" exWorld
          "<html><body>hello</body></html>")).get "performance").bind
        (fun p => p.get "desktop")).bind (fun v => v.get "performance_score")
      = (((assembledAudit "https://example.com" exWorld
          "<html><body>hello</body></html>").get "performance").bind
        (fun p => p.get "desktop")).bind (fun v => v.get "performance_score")
    ∧ (((assembledAudit "https://example.com" exWorld
          "<html><body>hello</body></html>").get "performance").bind
        (fun p => p.get "desktop")).bind (fun v => v.get "full_report")
      = some exReport.toJVal :=
  ⟨((C6_prompt_strips_raw_reports "https://example.com"
      "<html><body>hello</body></html>" exWorld).2.2.2.2.1
      "performance_score" (by decide)).1,
   (C6_prompt_strips_raw_reports "https://example.com"
      "<html><body>hello</body></html>" exWorld).2.2.2.2.2.1 exReport rfl⟩

end WebAudit
